import Mathlib

/-! Shallow embedding of `src/input_handlers.py` from the `rlt` repository:
the event-handler state machine, turn driver, inventory menus, game-over
lockout and message-history viewer of a turn-based roguelike.

Conventions: `tcod.event.KeySym` members are SDL keycodes, i.e. integers, and
the source does arithmetic on them (`key - tcod.event.KeySym.a`), so keys are
`Int` here with the actual SDL keycode values; Python's unbounded integers are
`Int`.  Collaborator calls made by the turn driver (`handle_enemy_turns`,
`update_fov`) are recorded as an ordered trace.  Raising `SystemExit` is an
explicit outcome constructor. -/

namespace Rlt

/-! SDL keycode constants below: the values behind the `tcod.event.KeySym`
members that `src/input_handlers.py` references. -/

namespace KeySym

def UP : Int := 1073741906

def DOWN : Int := 1073741905

def LEFT : Int := 1073741904

def RIGHT : Int := 1073741903

def HOME : Int := 1073741898

def END : Int := 1073741901

def PAGEUP : Int := 1073741899

def PAGEDOWN : Int := 1073741902

def KP_1 : Int := 1073741913

def KP_2 : Int := 1073741914

def KP_3 : Int := 1073741915

def KP_4 : Int := 1073741916

def KP_5 : Int := 1073741917

def KP_6 : Int := 1073741918

def KP_7 : Int := 1073741919

def KP_8 : Int := 1073741920

def KP_9 : Int := 1073741921

def PERIOD : Int := 46

def CLEAR : Int := 1073741980

def ESCAPE : Int := 27

def LSHIFT : Int := 1073742049

def RSHIFT : Int := 1073742053

def LCTRL : Int := 1073742048

def RCTRL : Int := 1073742052

def LALT : Int := 1073742050

def RALT : Int := 1073742054

def a : Int := 97

def b : Int := 98

def c : Int := 99

def d : Int := 100

def g : Int := 103

def h : Int := 104

def i : Int := 105

def j : Int := 106

def k : Int := 107

def l : Int := 108

def n : Int := 110

def u : Int := 117

def v : Int := 118

def y : Int := 121

def z : Int := 122

end KeySym

/-- `MOVE_KEYS` dictionary of `src/input_handlers.py` (lines 22-50): key to
movement delta `(dx, dy)`; lookup order follows the source listing (all keys
are distinct, so order is immaterial). -/
def MOVE_KEYS (key : Int) : Option (Int × Int) :=
  if key = KeySym.UP then some (0, -1)
  else if key = KeySym.DOWN then some (0, 1)
  else if key = KeySym.LEFT then some (-1, 0)
  else if key = KeySym.RIGHT then some (1, 0)
  else if key = KeySym.HOME then some (-1, -1)
  else if key = KeySym.END then some (-1, 1)
  else if key = KeySym.PAGEUP then some (1, -1)
  else if key = KeySym.PAGEDOWN then some (1, 1)
  else if key = KeySym.KP_1 then some (-1, 1)
  else if key = KeySym.KP_2 then some (0, 1)
  else if key = KeySym.KP_3 then some (1, 1)
  else if key = KeySym.KP_4 then some (-1, 0)
  else if key = KeySym.KP_6 then some (1, 0)
  else if key = KeySym.KP_7 then some (-1, -1)
  else if key = KeySym.KP_8 then some (0, -1)
  else if key = KeySym.KP_9 then some (1, -1)
  else if key = KeySym.h then some (-1, 0)
  else if key = KeySym.j then some (0, 1)
  else if key = KeySym.k then some (0, -1)
  else if key = KeySym.l then some (1, 0)
  else if key = KeySym.y then some (-1, -1)
  else if key = KeySym.u then some (1, -1)
  else if key = KeySym.b then some (-1, 1)
  else if key = KeySym.n then some (1, 1)
  else none

/-- `WAIT_KEYS` set of `src/input_handlers.py` (lines 52-56). -/
def WAIT_KEYS : List Int := [KeySym.PERIOD, KeySym.KP_5, KeySym.CLEAR]

/-- The modifier-key set ignored by `AskUserEventHandler.ev_keydown`
(`src/input_handlers.py` lines 107-114). -/
def MODIFIER_KEYS : List Int :=
  [KeySym.LSHIFT, KeySym.RSHIFT, KeySym.LCTRL, KeySym.RCTRL,
   KeySym.LALT, KeySym.RALT]

/-- `CURSOR_Y_KEYS` dictionary of `src/input_handlers.py` (lines 253-258):
navigation key to signed cursor delta. -/
def CURSOR_Y_KEYS (key : Int) : Option Int :=
  if key = KeySym.UP then some (-1)
  else if key = KeySym.DOWN then some 1
  else if key = KeySym.PAGEUP then some (-10)
  else if key = KeySym.PAGEDOWN then some 10
  else none

/-- Modelled from the spec: the `color` module is not under `src/`.  The spec
(section 7) distinguishes three user-visible message categories: the
impossible-failure tint (`color.impossible`), the invalid-input tint
(`color.invalid`), and ordinary narrative messages. -/
inductive Color
  | impossible
  | invalid
  | narrative
deriving DecidableEq

/-- Modelled from the spec: the `entity` module is not under `src/`.  An
inventory item; only its identity and display name are visible to the input
handlers. -/
structure Item where
  name : String
deriving DecidableEq

/-- Modelled from the spec: the `actions` module is not under `src/`.  The
action values constructed by the handlers in `src/input_handlers.py`:
`BumpAction(player, dx, dy)`, `WaitAction(player)`, `PickupAction(player)`,
`actions.DropItem(player, item)`.  The single player entity is implicit. -/
inductive Action
  | bump (dx dy : Int)
  | wait
  | pickup
  | dropItem (item : Item)
deriving DecidableEq

/-- Modelled from the spec: the `exceptions` module and action internals are
not under `src/`.  `perform()` either succeeds, raises
`exceptions.Impossible(reason)` (recoverable), or raises some other, fatal
exception that the turn driver does not catch. -/
inductive PerformResult
  | ok
  | impossible (reason : String)
  | fatal
deriving DecidableEq

/-- The active-handler variant held in `engine.event_handler`.  `HistoryViewer`
carries its own state: the `log_length` snapshot and the `cursor`
(`src/input_handlers.py` lines 263-266). -/
inductive Handler
  | mainGame
  | inventoryActivate
  | inventoryDrop
  | historyViewer (log_length : Int) (cursor : Int)
  | gameOver
deriving DecidableEq

/-- The engine state visible to the input handlers: the active handler, the
message log (text, category pairs) and the player's inventory item list. -/
structure Engine where
  event_handler : Handler
  message_log : List (String × Color)
  inventory_items : List Item
deriving DecidableEq

/-- Modelled from the spec: the message-log collaborator is not under `src/`;
the spec (section 2) describes it as an append-only ordered sequence, so
`add_message(text, fg)` appends one tagged entry. -/
def MessageLog.add_message (log : List (String × Color)) (text : String)
    (fg : Color) : List (String × Color) :=
  log ++ [(text, fg)]

/-- Opaque collaborator calls made by the turn driver, recorded in call
order. -/
inductive Collab
  | handle_enemy_turns
  | update_fov
deriving DecidableEq

/-- Result of a normally-returning `handle_action`: the returned boolean
(whether a turn advanced), the engine state afterwards, and the ordered trace
of opaque collaborator calls made during the call. -/
structure HAResult where
  advanced : Bool
  engine : Engine
  calls : List Collab
deriving DecidableEq

/-- Outcome of `handle_action`: a normal return, or an uncaught exception from
`perform` propagating out (fatal by design). -/
inductive HAOutcome
  | ret (r : HAResult)
  | propagated
deriving DecidableEq

/-- `EventHandler.handle_action` (`src/input_handlers.py` lines 65-82).
`perform` is the opaque behaviour of the action collaborator. -/
def EventHandler.handle_action (perform : Action → PerformResult) (e : Engine)
    (action : Option Action) : HAOutcome :=
  match action with
  | none => HAOutcome.ret ⟨false, e, []⟩
  | some act =>
    match perform act with
    | PerformResult.fatal => HAOutcome.propagated
    | PerformResult.impossible reason =>
        HAOutcome.ret
          ⟨false,
           { e with message_log :=
               MessageLog.add_message e.message_log reason Color.impossible },
           []⟩
    | PerformResult.ok =>
        HAOutcome.ret ⟨true, e, [Collab.handle_enemy_turns, Collab.update_fov]⟩


/-- `AskUserEventHandler.handle_action` (`src/input_handlers.py` lines
98-103): wraps the base `handle_action`; on a turn-advancing action it
switches the active handler back to `MainGameEventHandler`.  Both inventory
handlers inherit this method unchanged. -/
def AskUserEventHandler.handle_action (perform : Action → PerformResult)
    (e : Engine) (action : Option Action) : HAOutcome :=
  match EventHandler.handle_action perform e action with
  | HAOutcome.ret r =>
    if r.advanced then
      HAOutcome.ret ⟨true, { r.engine with event_handler := Handler.mainGame }, r.calls⟩
    else
      HAOutcome.ret r
  | HAOutcome.propagated => HAOutcome.propagated

/-- `AskUserEventHandler.on_exit` (`src/input_handlers.py` lines 122-128):
switch back to `MainGameEventHandler`, return no action. -/
def AskUserEventHandler.on_exit (e : Engine) : Option Action × Engine :=
  (none, { e with event_handler := Handler.mainGame })

/-- `AskUserEventHandler.ev_keydown` (`src/input_handlers.py` lines 105-116):
ignore standalone modifier keys, any other key exits via `on_exit`. -/
def AskUserEventHandler.ev_keydown (e : Engine) (key : Int) :
    Option Action × Engine :=
  if key ∈ MODIFIER_KEYS then (none, e)
  else AskUserEventHandler.on_exit e

/-- `InventoryEventHandler.ev_keydown` (`src/input_handlers.py` lines
180-192): letter-offset index; in-range index selects the item (delegating to
the subclass's `on_item_selected`), an `IndexError` logs "Invalid entry.";
other keys fall back to the `AskUserEventHandler` default. -/
def InventoryEventHandler.ev_keydown (on_item_selected : Item → Option Action)
    (e : Engine) (key : Int) : Option Action × Engine :=
  let index := key - KeySym.a
  if 0 ≤ index ∧ index ≤ 26 then
    match e.inventory_items.get? index.toNat with
    | none =>
        (none,
         { e with message_log :=
             MessageLog.add_message e.message_log "Invalid entry." Color.invalid })
    | some selected_item => (on_item_selected selected_item, e)
  else
    AskUserEventHandler.ev_keydown e key

/-- `InventoryActivateHandler.on_item_selected` (`src/input_handlers.py` lines
203-205): delegates to the item's opaque `consumable.get_action(player)`
collaborator, passed in as `get_action`. -/
def InventoryActivateHandler.on_item_selected
    (get_action : Item → Option Action) (item : Item) : Option Action :=
  get_action item

/-- `InventoryDropHandler.on_item_selected` (`src/input_handlers.py` lines
212-214): construct a drop action for the selected item. -/
def InventoryDropHandler.on_item_selected (item : Item) : Option Action :=
  some (Action.dropItem item)

/-- `HistoryViewer.__init__` (`src/input_handlers.py` lines 263-266): snapshot
the log length, set the cursor to `log_length - 1`. -/
def HistoryViewer.init (e : Engine) : Handler :=
  Handler.historyViewer (e.message_log.length : Int)
    ((e.message_log.length : Int) - 1)

/-- Outcome of dispatching one event to the active handler: a normal return of
an optional action together with the engine afterwards, or a raised
`SystemExit`. -/
inductive EvOutcome
  | ret (action : Option Action) (e : Engine)
  | sysExit
deriving DecidableEq

/-- `EventHandler.ev_quit` (`src/input_handlers.py` lines 89-90): raises
`SystemExit`.  No subclass overrides it, so every handler variant shares this
behaviour. -/
def EventHandler.ev_quit (_e : Engine) : EvOutcome :=
  EvOutcome.sysExit

/-- `MainGameEventHandler.ev_keydown` (`src/input_handlers.py` lines 216-246),
branch order as in the source. -/
def MainGameEventHandler.ev_keydown (e : Engine) (key : Int) : EvOutcome :=
  match MOVE_KEYS key with
  | some (dx, dy) => EvOutcome.ret (some (Action.bump dx dy)) e
  | none =>
    if key ∈ WAIT_KEYS then EvOutcome.ret (some Action.wait) e
    else if key = KeySym.ESCAPE then EvOutcome.sysExit
    else if key = KeySym.v then
      EvOutcome.ret none { e with event_handler := HistoryViewer.init e }
    else if key = KeySym.g then EvOutcome.ret (some Action.pickup) e
    else if key = KeySym.i then
      EvOutcome.ret none { e with event_handler := Handler.inventoryActivate }
    else if key = KeySym.d then
      EvOutcome.ret none { e with event_handler := Handler.inventoryDrop }
    else EvOutcome.ret none e

/-- `GameOverEventHandler.ev_keydown` (`src/input_handlers.py` lines 248-251):
escape raises `SystemExit`, everything else returns no action. -/
def GameOverEventHandler.ev_keydown (e : Engine) (key : Int) : EvOutcome :=
  if key = KeySym.ESCAPE then EvOutcome.sysExit
  else EvOutcome.ret none e

/-- Cursor-update logic of `HistoryViewer.ev_keydown` for a navigation key
(`src/input_handlers.py` lines 294-302): wrap from the exact top edge on a
negative delta, wrap from the exact bottom edge on a positive delta, otherwise
add the delta and clamp into the log bounds. -/
def HistoryViewer.navCursor (log_length cursor adjust : Int) : Int :=
  if adjust < 0 ∧ cursor = 0 then log_length - 1
  else if 0 < adjust ∧ cursor = log_length - 1 then 0
  else max 0 (min (cursor + adjust) (log_length - 1))

/-- `HistoryViewer.ev_keydown` (`src/input_handlers.py` lines 290-308).
`log_length` and `cursor` are the viewer's own state, stored in the handler
variant; the method always returns `None` as its action. -/
def HistoryViewer.ev_keydown (e : Engine) (log_length cursor : Int)
    (key : Int) : EvOutcome :=
  match CURSOR_Y_KEYS key with
  | some adjust =>
      let new_cursor := HistoryViewer.navCursor log_length cursor adjust
      EvOutcome.ret none
        { e with event_handler := Handler.historyViewer log_length new_cursor }
  | none =>
    if key = KeySym.HOME then
      EvOutcome.ret none
        { e with event_handler := Handler.historyViewer log_length 0 }
    else if key = KeySym.END then
      EvOutcome.ret none
        { e with event_handler :=
            Handler.historyViewer log_length (log_length - 1) }
    else
      EvOutcome.ret none { e with event_handler := Handler.mainGame }

/-- The input-event union relevant to the handlers' control flow (mouse events
touch only the hover location and are orthogonal to every claim here). -/
inductive Event
  | quit
  | keyDown (key : Int)
deriving DecidableEq

/-- Event dispatch of `tcod.event.EventDispatch` specialised to this
repository's handler variants: a quit event goes to the shared
`EventHandler.ev_quit` (no variant overrides it), a key-down event goes to the
active variant's `ev_keydown`.  `get_action` is the opaque
`item.consumable.get_action(player)` collaborator used by
`InventoryActivateHandler`. -/
def dispatch (get_action : Item → Option Action) (e : Engine) (ev : Event) :
    EvOutcome :=
  match ev with
  | Event.quit => EventHandler.ev_quit e
  | Event.keyDown key =>
    match e.event_handler with
    | Handler.mainGame => MainGameEventHandler.ev_keydown e key
    | Handler.inventoryActivate =>
        let r := InventoryEventHandler.ev_keydown
          (InventoryActivateHandler.on_item_selected get_action) e key
        EvOutcome.ret r.1 r.2
    | Handler.inventoryDrop =>
        let r := InventoryEventHandler.ev_keydown
          InventoryDropHandler.on_item_selected e key
        EvOutcome.ret r.1 r.2
    | Handler.historyViewer log_length cursor =>
        HistoryViewer.ev_keydown e log_length cursor key
    | Handler.gameOver => GameOverEventHandler.ev_keydown e key

/-- A concrete engine used to instantiate proved theorems: main-game handler,
one narrative message, two inventory items. -/
def engW : Engine :=
  ⟨Handler.mainGame, [("Hello and welcome, adventurer!", Color.narrative)],
   [⟨"Health Potion"⟩, ⟨"Lightning Scroll"⟩]⟩

/-- A concrete engine with an empty message log and empty inventory. -/
def engEmpty : Engine :=
  ⟨Handler.mainGame, [], []⟩

/-- The base `handle_action` never reassigns `engine.event_handler`: it only
touches the message log and the collaborators. -/
theorem handle_action_preserves_handler (perform : Action → PerformResult)
    (e : Engine) (action : Option Action) (r : HAResult)
    (h : EventHandler.handle_action perform e action = HAOutcome.ret r) :
    r.engine.event_handler = e.event_handler := by
  cases action with
  | none =>
    simp only [EventHandler.handle_action] at h
    injection h with h2
    subst h2
    rfl
  | some a =>
    simp only [EventHandler.handle_action] at h
    cases hp : perform a with
    | ok =>
      rw [hp] at h
      injection h with h2
      subst h2
      rfl
    | impossible reason =>
      rw [hp] at h
      injection h with h2
      subst h2
      rfl
    | fatal =>
      rw [hp] at h
      exact absurd h (by simp)

/-- Every delta in `CURSOR_Y_KEYS` is one of -1, 1, -10, 10. -/
theorem cursor_y_keys_values (key adjust : Int)
    (h : CURSOR_Y_KEYS key = some adjust) :
    adjust = -1 ∨ adjust = 1 ∨ adjust = -10 ∨ adjust = 10 := by
  unfold CURSOR_Y_KEYS at h
  split_ifs at h <;> simp_all

/-- C1: `EventHandler.handle_action` with an absent action returns false with
no side effects (engine unchanged, empty collaborator trace); when the
action's `perform` succeeds, the collaborator trace is exactly
`[handle_enemy_turns, update_fov]` — enemy-turn resolution exactly once, then
the field-of-view recompute exactly once, in that order — and it returns
true. -/
theorem handle_action_success_protocol (perform : Action → PerformResult)
    (e : Engine) :
    EventHandler.handle_action perform e none = HAOutcome.ret ⟨false, e, []⟩ ∧
    ∀ a : Action, perform a = PerformResult.ok →
      EventHandler.handle_action perform e (some a) =
        HAOutcome.ret ⟨true, e, [Collab.handle_enemy_turns, Collab.update_fov]⟩ := by
  refine ⟨rfl, ?_⟩
  intro a ha
  simp [EventHandler.handle_action, ha]

/-- Witness for C1 at a concrete input. -/
theorem handle_action_success_protocol_witness :
    EventHandler.handle_action (fun _ => PerformResult.ok) engW
        (some Action.wait) =
      HAOutcome.ret
        ⟨true, engW, [Collab.handle_enemy_turns, Collab.update_fov]⟩ :=
  (handle_action_success_protocol (fun _ => PerformResult.ok) engW).2
    Action.wait rfl

/-- C2: when `perform` raises `Impossible(reason)`, `handle_action` appends
`reason` to the message log tagged with the impossible category, returns
false, and the collaborator trace is empty — neither enemy-turn resolution nor
the field-of-view recompute is invoked. -/
theorem handle_action_impossible_skips_turn (perform : Action → PerformResult)
    (e : Engine) (a : Action) (reason : String)
    (h : perform a = PerformResult.impossible reason) :
    EventHandler.handle_action perform e (some a) =
      HAOutcome.ret
        ⟨false, { e with message_log := e.message_log ++ [(reason, Color.impossible)] }, []⟩ := by
  simp [EventHandler.handle_action, h, MessageLog.add_message]

/-- Witness for C2 at a concrete input. -/
theorem handle_action_impossible_skips_turn_witness :
    EventHandler.handle_action
        (fun _ => PerformResult.impossible "That way is blocked.") engW
        (some Action.wait) =
      HAOutcome.ret
        ⟨false, { engW with message_log := engW.message_log ++ [("That way is blocked.", Color.impossible)] }, []⟩ :=
  handle_action_impossible_skips_turn
    (fun _ => PerformResult.impossible "That way is blocked.") engW
    Action.wait "That way is blocked." rfl

/-- C3: for every AskUser-derived handler (both inventory handlers inherit
`AskUserEventHandler.handle_action` unchanged), whenever the wrapped base
`handle_action` returns true the active handler is `MainGame` immediately
afterwards, and whenever it returns false no handler transition is made. -/
theorem ask_user_modal_exit (perform : Action → PerformResult) (e : Engine)
    (action : Option Action) (r : HAResult)
    (hbase : EventHandler.handle_action perform e action = HAOutcome.ret r) :
    (r.advanced = true →
      AskUserEventHandler.handle_action perform e action =
        HAOutcome.ret ⟨true, { r.engine with event_handler := Handler.mainGame }, r.calls⟩) ∧
    (r.advanced = false →
      AskUserEventHandler.handle_action perform e action = HAOutcome.ret r ∧
      r.engine.event_handler = e.event_handler) := by
  constructor
  · intro hv
    simp [AskUserEventHandler.handle_action, hbase, hv]
  · intro hv
    refine ⟨by simp [AskUserEventHandler.handle_action, hbase, hv], ?_⟩
    exact handle_action_preserves_handler perform e action r hbase

/-- Witness for C3 at a concrete input. -/
theorem ask_user_modal_exit_witness :
    AskUserEventHandler.handle_action (fun _ => PerformResult.ok) engW
        (some Action.wait) =
      HAOutcome.ret
        ⟨true, { engW with event_handler := Handler.mainGame },
         [Collab.handle_enemy_turns, Collab.update_fov]⟩ :=
  (ask_user_modal_exit (fun _ => PerformResult.ok) engW (some Action.wait)
    ⟨true, engW, [Collab.handle_enemy_turns, Collab.update_fov]⟩ rfl).1 rfl

/-- C4: in `HistoryViewer.ev_keydown`, for every navigation key of
`CURSOR_Y_KEYS` (up = -1, down = +1, page-up = -10, page-down = +10): a
negative delta with the cursor exactly at 0 wraps the cursor to
`log_length - 1`; a positive delta with the cursor exactly at
`log_length - 1` wraps it to 0; in every other case the delta is added and
the result clamped into `[0, log_length - 1]` (so, e.g., page-down from
cursor 0 with log_length 5 clamps to 4 rather than wrapping). -/
theorem history_viewer_wrap_and_clamp (e : Engine)
    (log_length cursor key adjust : Int)
    (h : CURSOR_Y_KEYS key = some adjust) :
    (adjust < 0 → cursor = 0 →
      HistoryViewer.ev_keydown e log_length cursor key =
        EvOutcome.ret none
          { e with event_handler := Handler.historyViewer log_length (log_length - 1) }) ∧
    (0 < adjust → cursor = log_length - 1 →
      HistoryViewer.ev_keydown e log_length cursor key =
        EvOutcome.ret none
          { e with event_handler := Handler.historyViewer log_length 0 }) ∧
    (¬ (adjust < 0 ∧ cursor = 0) → ¬ (0 < adjust ∧ cursor = log_length - 1) →
      HistoryViewer.ev_keydown e log_length cursor key =
        EvOutcome.ret none
          { e with event_handler := Handler.historyViewer log_length (max 0 (min (cursor + adjust) (log_length - 1))) }) := by
  refine ⟨?_, ?_, ?_⟩
  · intro h1 h2
    simp [HistoryViewer.ev_keydown, h, HistoryViewer.navCursor, h1, h2]
  · intro h1 h2
    have h3 : ¬ adjust < 0 := not_lt.2 h1.le
    simp [HistoryViewer.ev_keydown, h, HistoryViewer.navCursor, h1, h2, h3]
  · intro h1 h2
    simp [HistoryViewer.ev_keydown, h, HistoryViewer.navCursor, h1, h2]

/-- Witness for C4 at a concrete input: log_length 5, page-down from cursor 0
clamps to 4. -/
theorem history_viewer_wrap_and_clamp_witness :
    HistoryViewer.ev_keydown engW 5 0 KeySym.PAGEDOWN =
      EvOutcome.ret none
        { engW with event_handler := Handler.historyViewer 5 4 } := by
  have H := (history_viewer_wrap_and_clamp engW 5 0 KeySym.PAGEDOWN 10
    (by decide)).2.2 (by decide) (by decide)
  simpa using H

/-- C5: in `InventoryEventHandler.ev_keydown`, for a key whose offset from the
letter `a` lies in `[0, 26]`: an offset within the item count selects exactly
the item at that index via `on_item_selected` (`a` is index 0, `b` index 1,
and so on), leaving the engine untouched; an offset at or beyond the item
count logs "Invalid entry." with the invalid-input category, returns no
action, and leaves the active handler unchanged (the menu stays open). -/
theorem inventory_index_selection (on_item_selected : Item → Option Action)
    (e : Engine) (k1 k2 : Int)
    (h1a : 0 ≤ k1 - KeySym.a) (h1b : k1 - KeySym.a ≤ 26)
    (h1c : (k1 - KeySym.a).toNat < e.inventory_items.length)
    (h2a : 0 ≤ k2 - KeySym.a) (h2b : k2 - KeySym.a ≤ 26)
    (h2c : e.inventory_items.length ≤ (k2 - KeySym.a).toNat) :
    InventoryEventHandler.ev_keydown on_item_selected e k1 =
      (on_item_selected (e.inventory_items.get ⟨(k1 - KeySym.a).toNat, h1c⟩), e) ∧
    InventoryEventHandler.ev_keydown on_item_selected e k2 =
      (none, { e with message_log := e.message_log ++ [("Invalid entry.", Color.invalid)] }) := by
  constructor
  · have hget : e.inventory_items[(k1 - KeySym.a).toNat]? =
        some (e.inventory_items.get ⟨(k1 - KeySym.a).toNat, h1c⟩) := by
      simp [List.getElem?_eq_getElem h1c, List.get_eq_getElem]
    simp [InventoryEventHandler.ev_keydown, h1a, h1b, hget]
  · have hget : e.inventory_items[(k2 - KeySym.a).toNat]? = none :=
      List.getElem?_eq_none h2c
    simp [InventoryEventHandler.ev_keydown, h2a, h2b, hget,
      MessageLog.add_message]

/-- Witness for C5 at concrete inputs: with two items, key `b` selects the
item at index 1 and key `c` is an invalid entry. -/
theorem inventory_index_selection_witness :
    InventoryEventHandler.ev_keydown InventoryDropHandler.on_item_selected
        engW KeySym.b =
      (some (Action.dropItem ⟨"Lightning Scroll"⟩), engW) ∧
    InventoryEventHandler.ev_keydown InventoryDropHandler.on_item_selected
        engW KeySym.c =
      (none, { engW with message_log := engW.message_log ++ [("Invalid entry.", Color.invalid)] }) := by
  have H := inventory_index_selection InventoryDropHandler.on_item_selected
    engW KeySym.b KeySym.c (by decide) (by decide) (by decide) (by decide)
    (by decide) (by decide)
  exact ⟨H.1, H.2⟩

/-- C6 counterexample: entering the history viewer with an empty message log
(log_length = 0) initialises the cursor to -1, which does not lie in the
claimed range `[0, log_length - 1]`. -/
theorem history_cursor_empty_log_cex :
    HistoryViewer.init engEmpty = Handler.historyViewer 0 (-1) ∧
    ¬ (0 ≤ (-1 : Int) ∧ (-1 : Int) ≤ 0 - 1) :=
  ⟨rfl, by decide⟩

/-- C6 (amended): provided the message log is non-empty at entry
(log_length ≥ 1), the viewer starts with cursor `log_length - 1`, which lies
in `[0, log_length - 1]`, and every key the viewer handles that leaves a
`historyViewer` handler active keeps the cursor in that range (log_length is
the snapshot stored in the handler variant, never re-read). -/
theorem history_cursor_range_invariant (e : Engine)
    (hne : 1 ≤ (e.message_log.length : Int)) :
    (HistoryViewer.init e =
       Handler.historyViewer (e.message_log.length : Int) ((e.message_log.length : Int) - 1) ∧
     0 ≤ (e.message_log.length : Int) - 1 ∧
     (e.message_log.length : Int) - 1 ≤ (e.message_log.length : Int) - 1) ∧
    ∀ log_length cursor key c2 : Int, ∀ a : Option Action, ∀ e2 e3 : Engine,
      1 ≤ log_length → 0 ≤ cursor → cursor ≤ log_length - 1 →
      HistoryViewer.ev_keydown e2 log_length cursor key = EvOutcome.ret a e3 →
      e3.event_handler = Handler.historyViewer log_length c2 →
      0 ≤ c2 ∧ c2 ≤ log_length - 1 := by
  refine ⟨⟨rfl, by omega, le_refl _⟩, ?_⟩
  intro L c key c2 a e2 e3 hL hc0 hc1 hev hh
  unfold HistoryViewer.ev_keydown at hev
  cases hk : CURSOR_Y_KEYS key with
  | some adjust =>
    rw [hk] at hev
    cases hev
    simp only [] at hh
    have hc2 : HistoryViewer.navCursor L c adjust = c2 := by
      injection hh
    rw [← hc2]
    unfold HistoryViewer.navCursor
    split_ifs with hcase1 hcase2
    · omega
    · omega
    · constructor
      · exact le_max_left 0 _
      · exact max_le (by omega) (min_le_right _ _)
  | none =>
    rw [hk] at hev
    split_ifs at hev with hhome hend
    · cases hev
      have hc2 : (0 : Int) = c2 := by injection hh
      omega
    · cases hev
      have hc2 : L - 1 = c2 := by injection hh
      omega
    · cases hev
      simp at hh

/-- Witness for C6 (amended) at concrete inputs: entry with a one-message
log, and a down-key wrap from the bottom of a five-message snapshot. -/
theorem history_cursor_range_invariant_witness :
    (HistoryViewer.init engW = Handler.historyViewer 1 0 ∧
     0 ≤ (1 : Int) - 1 ∧ (1 : Int) - 1 ≤ (1 : Int) - 1) ∧
    (0 ≤ (0 : Int) ∧ (0 : Int) ≤ 5 - 1) := by
  have H := history_cursor_range_invariant engW (by decide)
  exact ⟨H.1, H.2 5 4 KeySym.DOWN 0 none engW
    { engW with event_handler := Handler.historyViewer 5 0 }
    (by decide) (by decide) (by decide) (by decide) rfl⟩

/-- C7: dispatching a quit event terminates processing (raises `SystemExit`)
for every handler variant — no variant overrides `ev_quit` — and the escape
key raises `SystemExit` in both `MainGame` and `GameOver`. -/
theorem quit_and_escape_terminate (get_action : Item → Option Action)
    (e : Engine) :
    dispatch get_action e Event.quit = EvOutcome.sysExit ∧
    dispatch get_action { e with event_handler := Handler.mainGame }
        (Event.keyDown KeySym.ESCAPE) = EvOutcome.sysExit ∧
    dispatch get_action { e with event_handler := Handler.gameOver }
        (Event.keyDown KeySym.ESCAPE) = EvOutcome.sysExit := by
  exact ⟨rfl, rfl, rfl⟩

/-- C8: in the default `AskUserEventHandler.ev_keydown`, each of the six
standalone modifier keys is ignored (no action, no handler transition), and
any key outside that set triggers `on_exit`, which switches the active
handler to `MainGame` and returns no action. -/
theorem ask_user_default_keydown (e : Engine) (kmod kother : Int)
    (hm : kmod ∈ MODIFIER_KEYS) (ho : kother ∉ MODIFIER_KEYS) :
    AskUserEventHandler.ev_keydown e kmod = (none, e) ∧
    AskUserEventHandler.ev_keydown e kother = AskUserEventHandler.on_exit e ∧
    AskUserEventHandler.on_exit e =
      (none, { e with event_handler := Handler.mainGame }) := by
  refine ⟨?_, ?_, rfl⟩
  · simp [AskUserEventHandler.ev_keydown, hm]
  · simp [AskUserEventHandler.ev_keydown, ho]

/-- Witness for C8 at concrete inputs: left shift is ignored, the letter `x`
(keycode 120) exits to `MainGame`. -/
theorem ask_user_default_keydown_witness :
    AskUserEventHandler.ev_keydown engW KeySym.LSHIFT = (none, engW) ∧
    AskUserEventHandler.ev_keydown engW 120 = AskUserEventHandler.on_exit engW ∧
    AskUserEventHandler.on_exit engW =
      (none, { engW with event_handler := Handler.mainGame }) :=
  ask_user_default_keydown engW KeySym.LSHIFT 120 (by decide) (by decide)

/-- C9: in `MainGame`, the Home, End, Page-Up and Page-Down keys are movement
keys: they construct bump actions with deltas (-1,-1), (-1,1), (1,-1) and
(1,1) respectively (they are neither ignored nor reserved for the history
viewer in this mode). -/
theorem main_game_home_end_page_keys (e : Engine) :
    MainGameEventHandler.ev_keydown e KeySym.HOME =
      EvOutcome.ret (some (Action.bump (-1) (-1))) e ∧
    MainGameEventHandler.ev_keydown e KeySym.END =
      EvOutcome.ret (some (Action.bump (-1) 1)) e ∧
    MainGameEventHandler.ev_keydown e KeySym.PAGEUP =
      EvOutcome.ret (some (Action.bump 1 (-1))) e ∧
    MainGameEventHandler.ev_keydown e KeySym.PAGEDOWN =
      EvOutcome.ret (some (Action.bump 1 1)) e :=
  ⟨rfl, rfl, rfl, rfl⟩

/-- C10: entering the history viewer with an empty message log initialises
the cursor to -1, and pressing any of the four navigation keys then sets the
cursor to 0. -/
theorem history_viewer_empty_log_nav (e : Engine)
    (h : e.message_log = []) :
    HistoryViewer.init e = Handler.historyViewer 0 (-1) ∧
    ∀ key adjust : Int, CURSOR_Y_KEYS key = some adjust →
      ∀ e2 : Engine,
        HistoryViewer.ev_keydown e2 0 (-1) key =
          EvOutcome.ret none { e2 with event_handler := Handler.historyViewer 0 0 } := by
  constructor
  · unfold HistoryViewer.init
    rw [h]
    rfl
  · intro key adjust hk e2
    have hz : HistoryViewer.navCursor 0 (-1) adjust = 0 := by
      rcases cursor_y_keys_values key adjust hk with hv | hv | hv | hv <;>
        rw [hv] <;> decide
    simp [HistoryViewer.ev_keydown, hk, hz]

/-- Witness for C10 at a concrete input: empty log, then the up key. -/
theorem history_viewer_empty_log_nav_witness :
    HistoryViewer.init engEmpty = Handler.historyViewer 0 (-1) ∧
    HistoryViewer.ev_keydown engEmpty 0 (-1) KeySym.UP =
      EvOutcome.ret none
        { engEmpty with event_handler := Handler.historyViewer 0 0 } := by
  have H := history_viewer_empty_log_nav engEmpty rfl
  exact ⟨H.1, H.2 KeySym.UP (-1) (by decide) engEmpty⟩

end Rlt
